import Mathlib

/-
Verification development for the Multi-Agent Tourism Chatbot (src/app.py).

Shallow embedding conventions:
  * Python/JSON values are modelled by `PyVal`; Python numbers (int and float
    merged) are modelled as exact rationals `ℚ`.
  * Clock readings (`time.time()`) are rationals supplied by the environment:
    `now` for a reading at function entry, `failClock i` for the reading taken
    when attempt `i` fails (source: `time.time() + 30.0`).
  * The HTTP layer is an oracle `ℕ → Fetch`: attempt `i` either raises
    `requests.RequestException` (`Fetch.exc`, which also covers a non-2xx
    `raise_for_status` and a JSON-decode failure of `resp.json()`) or yields
    the parsed JSON body (`Fetch.ok body`).
  * Exceptions are explicit: `Except PyErr α`.  The relevant Python exception
    classes are catalogued in `PyErr`; `pyGet` on a non-dict raises
    `AttributeError` exactly as `x.get(...)` does in Python.
  * The functions record observable effects: how many times the underlying
    operation was attempted (`attempts` = number of `requests.get/post` calls)
    and the arguments of each `time.sleep` call (`sleeps`).
  * ASCII text: Python's `\s`, `str.strip`, `str.lower` are modelled on their
    ASCII behaviour, which covers every string the program manipulates here.
-/

/-- Python exception classes that the source raises or catches. -/
inductive PyErr where
  | requestException
  | valueError
  | typeError
  | attributeError
  deriving DecidableEq, Repr

/-- Python/JSON values. Numbers (int/float) are merged into one rational-valued
constructor; dict keys are strings, as for every JSON payload the program sees. -/
inductive PyVal where
  | none
  | bool (b : Bool)
  | num (q : ℚ)
  | str (s : String)
  | list (xs : List PyVal)
  | dict (entries : List (String × PyVal))
  deriving Repr

mutual

/-- Python structural equality (`==`) on the modelled values. -/
def pyBeq : PyVal → PyVal → Bool
  | .none, .none => true
  | .bool a, .bool b => a == b
  | .num a, .num b => a == b
  | .str a, .str b => a == b
  | .list as, .list bs => pyListBeq as bs
  | .dict as, .dict bs => pyDictBeq as bs
  | _, _ => false

def pyListBeq : List PyVal → List PyVal → Bool
  | [], [] => true
  | a :: as, b :: bs => pyBeq a b && pyListBeq as bs
  | _, _ => false

def pyDictBeq : List (String × PyVal) → List (String × PyVal) → Bool
  | [], [] => true
  | (ka, va) :: as, (kb, vb) :: bs => ka == kb && pyBeq va vb && pyDictBeq as bs
  | _, _ => false

end

/-- Python truthiness: None, False, 0, empty string/list/dict are falsy. -/
def pyTruthy : PyVal → Bool
  | .none => false
  | .bool b => b
  | .num q => !(q == 0)
  | .str s => !(s == "")
  | .list xs => !xs.isEmpty
  | .dict es => !es.isEmpty

/-- Python `x is None`. -/
def pyIsNone : PyVal → Bool
  | .none => true
  | _ => false

/-- Python `x or y` on values: `x` when truthy, else `y`. -/
def pyOrVal (x y : PyVal) : PyVal := if pyTruthy x then x else y

/-- Python `v.get(key, default)`: a dict lookup; on any non-dict receiver the
attribute access raises `AttributeError` (None, numbers, strings and lists have
no `get` method). -/
def pyGet (v : PyVal) (key : String) (default : PyVal) : Except PyErr PyVal :=
  match v with
  | .dict entries =>
    .ok (((entries.find? (fun e => e.1 == key)).map Prod.snd).getD default)
  | _ => .error .attributeError

/-- Python `for el in v`: lists iterate their items, strings their characters,
dicts their keys; iterating None, a number or a Bool raises `TypeError`. -/
def pyIter : PyVal → Except PyErr (List PyVal)
  | .list xs => .ok xs
  | .str s => .ok (s.data.map (fun c => .str (String.singleton c)))
  | .dict entries => .ok (entries.map (fun e => .str e.1))
  | _ => .error .typeError

/-- Digits of a decimal numeral, as a natural number; `Option.none` when the
character list is empty or holds a non-digit. -/
def digitsToNat : List Char → Option ℕ
  | [] => Option.none
  | cs =>
    if cs.all (fun c => c.isDigit) then
      some (cs.foldl (fun acc c => 10 * acc + (c.toNat - 48)) 0)
    else Option.none

/-- Whitespace as Python's ASCII `\s`: space, tab, newline, carriage return,
vertical tab, form feed. -/
def isSpaceB (c : Char) : Bool :=
  c == ' ' || c == '\t' || c == '\n' || c == '\r' || c.toNat == 11 || c.toNat == 12

/-- Minimal model of Python `float(str)`: optional surrounding whitespace,
optional sign, decimal digits with an optional fractional part.  Exponent and
infinity forms are omitted (nothing in the claims exercises them); every other
string raises `ValueError`, as `float("abc")` does. -/
def parseFloatStr (cs : List Char) : Option ℚ :=
  let cs := (cs.dropWhile isSpaceB).reverse.dropWhile isSpaceB |>.reverse
  let (sign, body) : ℚ × List Char :=
    match cs with
    | '-' :: rest => (-1, rest)
    | '+' :: rest => (1, rest)
    | _ => (1, cs)
  match body.splitOn '.' with
  | [intPart] =>
    match digitsToNat intPart with
    | some n => some (sign * n)
    | Option.none => Option.none
  | [intPart, fracPart] =>
    if intPart.isEmpty && fracPart.isEmpty then Option.none
    else
      let ip : ℚ := ((digitsToNat intPart).getD 0 : ℕ)
      let fp : ℚ := ((digitsToNat fracPart).getD 0 : ℕ)
      if (intPart.isEmpty || (digitsToNat intPart).isSome)
          && (fracPart.isEmpty || (digitsToNat fracPart).isSome) then
        some (sign * (ip + fp / ((10 : ℚ) ^ fracPart.length)))
      else Option.none
  | _ => Option.none

/-- Python `float(x)`: numbers pass through, Bools become 0/1, strings are
parsed (`ValueError` on failure), and None/lists/dicts raise `TypeError`. -/
def pyFloat : PyVal → Except PyErr ℚ
  | .num q => .ok q
  | .bool b => .ok (if b then 1 else 0)
  | .str s =>
    match parseFloatStr s.data with
    | some q => .ok q
    | Option.none => .error .valueError
  | _ => .error .typeError

/-- Python `round(x)` (no ndigits): round half to even.  Implemented on the
numerator/denominator so that the kernel can evaluate it: `f` is the floor and
`r2 = 2 * den * (x - f)` compares the fractional part against 1/2. -/
def roundHalfEven (q : ℚ) : ℤ :=
  let f : ℤ := Int.fdiv q.num (q.den : ℤ)
  let r2 : ℤ := 2 * (q.num - f * (q.den : ℤ))
  if r2 < (q.den : ℤ) then f
  else if (q.den : ℤ) < r2 then f + 1
  else if f % 2 = 0 then f else f + 1

/-- Python `str(x)` as used by the f-strings of the source.  Attraction names
and weather fragments are strings, which convert to themselves; the other
conversions are only sketched (no claim exercises them, and the merged
int/float model cannot reproduce float repr exactly). -/
def pyStr : PyVal → String
  | .str s => s
  | .num q => if q.den = 1 then toString q.num else toString q
  | .bool b => if b then "True" else "False"
  | .none => "None"
  | .list _ => "<list>"
  | .dict _ => "<dict>"

/-- ASCII letter. -/
def isAsciiAlpha (c : Char) : Bool :=
  (decide (65 ≤ c.toNat) && decide (c.toNat ≤ 90))
    || (decide (97 ≤ c.toNat) && decide (c.toNat ≤ 122))

/-- Lowercasing of one character, as Python `str.lower()` acts on ASCII. -/
def lowerChar (c : Char) : Char :=
  if decide (65 ≤ c.toNat) && decide (c.toNat ≤ 90) then Char.ofNat (c.toNat + 32) else c

/-- Python `str.lower()` (ASCII). -/
def lowerStr (s : String) : String := ⟨s.data.map lowerChar⟩

/-- Strip of leading and trailing whitespace on a character list. -/
def stripChars (cs : List Char) : List Char :=
  ((cs.dropWhile isSpaceB).reverse.dropWhile isSpaceB).reverse

/-- Python `str.strip()` (ASCII whitespace). -/
def stripStr (s : String) : String := ⟨stripChars s.data⟩

/-- One character of `re.sub(r"[^A-Za-z\s\-]", " ", text)`: everything except
letters, whitespace and the hyphen becomes a space. -/
def punctToSpace (c : Char) : Char :=
  if isAsciiAlpha c || isSpaceB c || c == '-' then c else ' '

/-- Replacement of punctuation by spaces over a whole string (app.py line 193
and line 226). -/
def subPunct (s : String) : String := ⟨s.data.map punctToSpace⟩

/-- Normalized lowercase text the parser classifies and searches: the stripped
input with punctuation replaced by spaces, lowercased (app.py lines 191-193). -/
def normQuery (s : String) : String := lowerStr (subPunct (stripStr s))

/-- Collapse of whitespace runs to single spaces, as
`re.sub(r"\s+", " ", destination)` (app.py line 228); the Bool argument says
whether the previous character was whitespace. -/
def collapseWsAux : Bool → List Char → List Char
  | _, [] => []
  | prev, c :: rest =>
    if isSpaceB c then
      if prev then collapseWsAux true rest else ' ' :: collapseWsAux true rest
    else c :: collapseWsAux false rest

/-- Membership of the destination character class `[a-z\-\s]`. -/
def isClassChar (c : Char) : Bool :=
  (decide (97 ≤ c.toNat) && decide (c.toNat ≤ 122)) || c == '-' || isSpaceB c

/-- Python `k in s` (substring containment): some tail of `s` starts with `k`. -/
def strIn (needle hay : String) : Bool :=
  hay.data.tails.any (fun t => needle.data.isPrefixOf t)

/-- Match of one destination pattern `lit ++ \s+ ++ ([a-z\-\s]+)` at the start
of `s`, with Python's greedy/backtracking semantics: `\s+` first takes the
whole whitespace run of length `m`; if a class character follows, the capture
is the maximal class run there; otherwise (the class includes `\s`) `\s+`
backtracks one character and the capture is that single whitespace character,
possible only when `m ≥ 2`.  Returns the captured group. -/
def matchPatHere (lit : List Char) (s : List Char) : Option (List Char) :=
  if lit.isPrefixOf s then
    let r := s.drop lit.length
    let m := (r.takeWhile isSpaceB).length
    if m = 0 then Option.none
    else
      let afterWs := r.drop m
      match afterWs.head? with
      | some c =>
        if isClassChar c then some (afterWs.takeWhile isClassChar)
        else if 2 ≤ m then some ((r.drop (m - 1)).take 1) else Option.none
      | Option.none => if 2 ≤ m then some ((r.drop (m - 1)).take 1) else Option.none
  else Option.none

/-- Python `re.search` for one destination pattern: the leftmost position at
which the pattern matches, returning its captured group. -/
def searchPat (lit : List Char) : List Char → Option (List Char)
  | [] => matchPatHere lit []
  | c :: rest =>
    match matchPatHere lit (c :: rest) with
    | some cap => some cap
    | Option.none => searchPat lit rest

/-- First pattern of the ordered list that matches anywhere in the text
(app.py lines 218-223). -/
def findFirstPat : List (List Char) → List Char → Option (List Char)
  | [], _ => Option.none
  | p :: ps, s =>
    match searchPat p s with
    | some cap => some cap
    | Option.none => findFirstPat ps s

/-- Weather-signal keywords (app.py line 195). -/
def weather_keywords : List String :=
  ["weather", "forecast", "temperature", "rain", "umbrella"]

/-- Places-signal keywords (app.py line 196). -/
def places_keywords : List String :=
  ["places", "attractions", "sights", "things to do", "poi", "tourist"]

/-- Destination phrase patterns in source order (app.py lines 209-217): the
literal prefix of each pattern `lit\s+([a-z\-\s]+)`. -/
def destPatterns : List (List Char) :=
  [("going to").data, ("go to").data, ("travel to").data, ("visit").data,
    ("in").data, ("at").data, ("to").data]

/-- Intent and destination extraction from free text: `parse_user_query`
(app.py lines 186-229). -/
def parse_user_query (user_input : String) : String × String :=
  let text := stripStr user_input
  let norm := lowerStr (subPunct text)
  let has_weather := weather_keywords.any (fun k => strIn k norm)
  let has_places := places_keywords.any (fun k => strIn k norm)
  let intent :=
    if has_weather && !has_places then "weather"
    else if has_places && !has_weather then "places"
    else "both"
  let destination := findFirstPat destPatterns norm.data
  let destChars :=
    match destination with
    | some d => if d.isEmpty then stripChars (subPunct text).data else d
    | Option.none => stripChars (subPunct text).data
  let dest : String := ⟨stripChars (collapseWsAux false destChars)⟩
  (dest, intent)

/-- Per-resource circuit-breaker state, one entry of `CB_STATE` (app.py lines
21-24): consecutive failures and the open-until timestamp. -/
structure CB where
  failures : ℕ
  openedUntil : ℚ
  deriving DecidableEq, Repr

/-- Outcome of one HTTP request plus body parse: `exc` models a raised
`requests.RequestException` (connection error, `raise_for_status`, or a
JSON-decode failure of `resp.json()`), `ok` the parsed JSON body. -/
inductive Fetch where
  | exc
  | ok (body : PyVal)

/-- Instrumented result of `get_weather`: the returned value or the escaped
exception, the weather breaker afterwards, how many requests were attempted,
and the argument of each `time.sleep` call. -/
structure WOut where
  res : Except PyErr (Option String)
  cb : CB
  attempts : ℕ
  sleeps : List ℚ
  deriving Repr

/-- Instrumented result of `get_tourist_places`, same fields. -/
structure POut where
  res : Except PyErr (List PyVal)
  cb : CB
  attempts : ℕ
  sleeps : List ℚ
  deriving Repr

/-- Backoff base, `backoff = 0.7` (app.py lines 82 and 153). -/
def backoff : ℚ := 7 / 10

/-- Selection of the precipitation probability (app.py lines 93-103):
`prob = probs[times.index(current_time)]` when the current time is truthy,
both are lists of equal positive length and the index is in range; the index
falls back to `0` when `current_time not in times`; any other shape leaves
`prob = None`.  (The guarded `times.index`/`in` calls cannot raise here, so
the inner `try` never fires in the model.) -/
def pyIndexOf (x : PyVal) : List PyVal → Option ℕ
  | [] => Option.none
  | y :: ys => if pyBeq y x then some 0 else (pyIndexOf x ys).map (· + 1)

def selectProb (current_time times probs : PyVal) : PyVal :=
  match times, probs with
  | .list ts, .list ps =>
    if pyTruthy current_time && (ts.length == ps.length) && decide (0 < ts.length) then
      let idx := (pyIndexOf current_time ts).getD 0
      if decide (idx < ps.length) then ps.getD idx .none else .none
    else .none
  | _, _ => .none

/-- Body of one successful `get_weather` request (app.py lines 89-120, after
`resp.json()`): reads the current block and the hourly block in source order
(so a malformed shape raises at the same point), returns `.ok Option.none`
for the early `if temp is None: return None`, `.ok (some text)` for the
formatted success string, and `.error e` for an exception that the
`except requests.RequestException` handler does not catch. -/
def weatherBody (data : PyVal) : Except PyErr (Option String) := do
  let current ← pyGet data "current" (.dict [])
  let temp ← pyGet current "temperature_2m" .none
  let current_time ← pyGet current "time" .none
  let hourly ← pyGet data "hourly" (.dict [])
  let timesRaw ← pyGet hourly "time" .none
  let times := pyOrVal timesRaw (.list [])
  let probsRaw ← pyGet hourly "precipitation_probability" .none
  let probs := pyOrVal probsRaw (.list [])
  let prob := selectProb current_time times probs
  if pyIsNone temp then return Option.none
  let tq ← pyFloat temp
  let temp_rounded := roundHalfEven tq
  let prob_val : Option ℤ :=
    if pyIsNone prob then Option.none
    else
      match pyFloat prob with
      | .ok pq => some (roundHalfEven pq)
      | .error _ => Option.none
  let prob_str :=
    match prob_val with
    | some v => toString v ++ "%"
    | Option.none => "N/A"
  return some (toString temp_rounded ++ "°C with a chance of " ++ prob_str ++ " to rain")

/-- Retry loop of `get_weather` (app.py lines 83-129), over the remaining
iteration indices of `for i in range(attempts)`; `rest.isEmpty` is the source
condition `i < attempts - 1` turned around.  On a caught failure the breaker
is incremented and, from 3 failures on, re-armed to `failClock i + 30`; the
sleep `backoff * (i + 1)` is recorded.  An uncaught exception escapes with the
breaker as accumulated so far. -/
def weatherLoop (fetch : ℕ → Fetch) (failClock : ℕ → ℚ) :
    CB → ℕ → List ℚ → List ℕ → WOut
  | cb, att, sl, [] => ⟨.ok Option.none, cb, att, sl⟩
  | cb, att, sl, i :: rest =>
    match fetch i with
    | .ok data =>
      match weatherBody data with
      | .error e => ⟨.error e, cb, att + 1, sl⟩
      | .ok Option.none => ⟨.ok Option.none, cb, att + 1, sl⟩
      | .ok (some s) => ⟨.ok (some s), ⟨0, 0⟩, att + 1, sl⟩
    | .exc =>
      let f := cb.failures + 1
      let cb' : CB := ⟨f, if 3 ≤ f then failClock i + 30 else cb.openedUntil⟩
      if rest.isEmpty then ⟨.ok Option.none, cb', att + 1, sl⟩
      else weatherLoop fetch failClock cb' (att + 1) (sl ++ [backoff * ((i : ℚ) + 1)]) rest

/-- Weather agent `get_weather` (app.py lines 60-129): short-circuits when the
breaker is open (`now < opened_until`), otherwise runs up to 3 attempts. -/
def get_weather (now : ℚ) (fetch : ℕ → Fetch) (failClock : ℕ → ℚ) (cb : CB) : WOut :=
  if now < cb.openedUntil then ⟨.ok Option.none, cb, 0, []⟩
  else weatherLoop fetch failClock cb 0 [] [0, 1, 2]

/-- Name collection of `get_tourist_places` (app.py lines 160-169): first
truthy, unseen name of each element, stopping once `limit` names are
collected; `el.get`/`tags.get` on a non-dict element raises `AttributeError`.
The `seen` set always equals the set of collected names, so membership is
checked against the accumulator. -/
def collectNames (limit : ℕ) : List PyVal → List PyVal → Except PyErr (List PyVal)
  | [], names => .ok names
  | el :: rest, names => do
    let tags ← pyGet el "tags" (.dict [])
    let name ← pyGet tags "name" .none
    let names' :=
      if pyTruthy name && !(names.any (fun n => pyBeq n name)) then names ++ [name]
      else names
    if decide (limit ≤ names'.length) then .ok names'
    else collectNames limit rest names'

/-- Body of one successful `get_tourist_places` request (app.py lines
159-173): read `elements`, iterate, collect up to `limit` distinct names. -/
def placesBody (data : PyVal) (limit : ℕ) : Except PyErr (List PyVal) := do
  let elements ← pyGet data "elements" (.list [])
  let items ← pyIter elements
  collectNames limit items []

/-- Whether the handler `except (requests.RequestException, ValueError,
TypeError)` of `get_tourist_places` (app.py line 174) catches an exception. -/
def placesCatches : PyErr → Bool
  | .requestException => true
  | .valueError => true
  | .typeError => true
  | .attributeError => false

/-- Retry loop of `get_tourist_places` (app.py lines 154-181), structured as
`weatherLoop`; its handler additionally catches ValueError and TypeError, and
an uncaught exception (AttributeError from a malformed element) escapes. -/
def placesLoop (fetch : ℕ → Fetch) (failClock : ℕ → ℚ) :
    CB → ℕ → List ℚ → List ℕ → POut
  | cb, att, sl, [] => ⟨.ok [], cb, att, sl⟩
  | cb, att, sl, i :: rest =>
    let outcome : Except PyErr (List PyVal) :=
      match fetch i with
      | .exc => .error .requestException
      | .ok data => placesBody data 5
    match outcome with
    | .ok names => ⟨.ok names, ⟨0, 0⟩, att + 1, sl⟩
    | .error e =>
      if placesCatches e then
        let f := cb.failures + 1
        let cb' : CB := ⟨f, if 3 ≤ f then failClock i + 30 else cb.openedUntil⟩
        if rest.isEmpty then ⟨.ok [], cb', att + 1, sl⟩
        else placesLoop fetch failClock cb' (att + 1) (sl ++ [backoff * ((i : ℚ) + 1)]) rest
      else ⟨.error e, cb, att + 1, sl⟩

/-- Places agent `get_tourist_places` with its default `limit = 5` (app.py
lines 132-183): short-circuits to `[]` when the breaker is open. -/
def get_tourist_places (now : ℚ) (fetch : ℕ → Fetch) (failClock : ℕ → ℚ) (cb : CB) : POut :=
  if now < cb.openedUntil then ⟨.ok [], cb, 0, []⟩
  else placesLoop fetch failClock cb 0 [] [0, 1, 2]

/-- Fixed failure string for a destination that does not geocode
(app.py line 245). -/
def noPlaceString : String := "I don't think this place exists."

/-- Fixed failure string when no section could be produced (app.py line 276). -/
def apologyString : String := "Sorry, I couldn't retrieve weather or places right now."

/-- Python truthiness of the `weather_text` variable (an `Optional[str]`):
None and the empty string are falsy. -/
def optTruthy : Option String → Bool
  | Option.none => false
  | some s => !(s == "")

/-- Weather section, `f"Weather in {dest}: {weather_text}."` (app.py line 271). -/
def weatherSection (dest wt : String) : String :=
  "Weather in " ++ dest ++ ": " ++ wt ++ "."

/-- Python `sep.join(parts)`. -/
def joinWith (sep : String) : List String → String
  | [] => ""
  | [x] => x
  | x :: xs => x ++ sep ++ joinWith sep xs

/-- Places section (app.py line 273): header plus one bulleted line per name. -/
def placesSection (dest : String) (places : List PyVal) : String :=
  "Top attractions near " ++ dest ++ ":\n"
    ++ joinWith "\n" (places.map (fun p => "- " ++ pyStr p))

/-- Response compilation (app.py lines 269-277): the weather section when
`weather_text` is truthy, then the places section when `places` is nonempty,
joined by blank lines; the fixed apology when both are absent. -/
def compileParts (dest : String) (weather_text : Option String) (places : List PyVal) : String :=
  let parts : List String :=
    (if optTruthy weather_text then [weatherSection dest (weather_text.getD "")] else [])
      ++ (if places.isEmpty then [] else [placesSection dest places])
  if parts.isEmpty then apologyString
  else joinWith "\n\n" parts

/-- Python `a or b` on strings: `a` when nonempty, else `b`. -/
def pyOrStr (a b : String) : String := if a == "" then b else a

/-- Effective intent string, `(intent or auto_intent or "both").strip().lower()`
(app.py line 241); the `intent` argument defaults to None. -/
def useIntentOf (intentArg : Option String) (autoIntent : String) : String :=
  let v :=
    match intentArg with
    | some s => pyOrStr (pyOrStr s autoIntent) "both"
    | Option.none => pyOrStr autoIntent "both"
  lowerStr (stripStr v)

/-- Which arm of the `if use_intent == "weather" / elif == "places" / else`
routing (app.py lines 252-257) a request takes. -/
inductive Branch where
  | weather
  | places
  | both
  deriving DecidableEq, Repr

def branchOf (use_intent : String) : Branch :=
  if use_intent = "weather" then .weather
  else if use_intent = "places" then .places
  else .both

/-- Timed model of the fan-out block (app.py lines 257-267).  Both workers are
submitted at fan-out time 0 and complete (normally or exceptionally) at times
`dw` and `dp`; `Future.result(timeout)` returns the outcome when it is ready
within the wait and raises `TimeoutError` otherwise; the `except Exception`
handlers turn a timeout or a worker exception into None / [].  The weather
wait runs over [0, min dw 15]; the places wait starts only after it, at `t1`,
with its own 20-second budget.  `with ThreadPoolExecutor(...)` joins both
workers on exit (`shutdown(wait=True)`), so the block finishes at `done`.
Returns (weather_text, places, done). -/
def bothPath (dw dp : ℚ) (wRes : Except PyErr (Option String))
    (pRes : Except PyErr (List PyVal)) : Option String × List PyVal × ℚ :=
  let weather_text :=
    if dw ≤ 15 then (match wRes with | .ok v => v | .error _ => Option.none)
    else Option.none
  let t1 := min dw 15
  let places :=
    if dp ≤ t1 + 20 then (match pRes with | .ok v => v | .error _ => [])
    else []
  let t2 := max t1 (min dp (t1 + 20))
  let done := max t2 (max dw dp)
  (weather_text, places, done)

/-- Environment of one `parent_tourism_agent` request: the geocoding oracle
(`get_coordinates` is a thin Nominatim wrapper, an external collaborator), the
clock/HTTP oracles of each data source, and — used only on the fan-out path —
the completion times `dw`/`dp` of the two workers measured from fan-out
start. -/
structure Env where
  geocode : String → Option (ℚ × ℚ)
  wNow : ℚ
  wFetch : ℕ → Fetch
  wFailClock : ℕ → ℚ
  pNow : ℚ
  pFetch : ℕ → Fetch
  pFailClock : ℕ → ℚ
  dw : ℚ
  dp : ℚ

/-- The process-wide breaker table `CB_STATE` (app.py lines 21-24). -/
structure CBs where
  weather : CB
  places : CB
  deriving DecidableEq, Repr

/-- Instrumented result of `parent_tourism_agent`: the returned string or the
escaped exception, the breaker table afterwards, which routing arm ran (none
when geocoding failed before routing), whether each child agent was invoked,
and the `(weather_text, places)` pair that reached response compilation (none
when an exception escaped first). -/
structure ParentOut where
  result : Except PyErr String
  cbs : CBs
  branch : Option Branch
  weatherCalled : Bool
  placesCalled : Bool
  sections : Option (Option String × List PyVal)

/-- Coordinator `parent_tourism_agent` (app.py lines 232-277). -/
def parent_tourism_agent (env : Env) (cbs : CBs) (user_input : String)
    (intentArg : Option String) : ParentOut :=
  let dest := (parse_user_query user_input).1
  let auto_intent := (parse_user_query user_input).2
  let use_intent := useIntentOf intentArg auto_intent
  match env.geocode dest with
  | Option.none =>
    ⟨.ok noPlaceString, cbs, Option.none, false, false, Option.none⟩
  | some _coords =>
    match branchOf use_intent with
    | .weather =>
      let w := get_weather env.wNow env.wFetch env.wFailClock cbs.weather
      match w.res with
      | .error e =>
        ⟨.error e, ⟨w.cb, cbs.places⟩, some .weather, true, false, Option.none⟩
      | .ok wt =>
        ⟨.ok (compileParts dest wt []), ⟨w.cb, cbs.places⟩, some .weather, true, false,
          some (wt, [])⟩
    | .places =>
      let p := get_tourist_places env.pNow env.pFetch env.pFailClock cbs.places
      match p.res with
      | .error e =>
        ⟨.error e, ⟨cbs.weather, p.cb⟩, some .places, false, true, Option.none⟩
      | .ok pl =>
        ⟨.ok (compileParts dest Option.none pl), ⟨cbs.weather, p.cb⟩, some .places, false, true,
          some (Option.none, pl)⟩
    | .both =>
      let w := get_weather env.wNow env.wFetch env.wFailClock cbs.weather
      let p := get_tourist_places env.pNow env.pFetch env.pFailClock cbs.places
      let r := bothPath env.dw env.dp w.res p.res
      ⟨.ok (compileParts dest r.1 r.2.1), ⟨w.cb, p.cb⟩, some .both, true, true,
        some (r.1, r.2.1)⟩

/-- Fresh breaker table: zero failures, `opened_until = 0.0` for both
resources (app.py lines 21-24). -/
def cbs0 : CBs := ⟨⟨0, 0⟩, ⟨0, 0⟩⟩

/-- Weather payload whose hourly times do not contain the current time: the
provider reports current time "T5" while the hourly slots are "T1", "T2". -/
def c3body : PyVal :=
  .dict [("current", .dict [("temperature_2m", .num 20), ("time", .str "T5")]),
    ("hourly", .dict [("time", .list [.str "T1", .str "T2"]),
      ("precipitation_probability", .list [.num 55, .num 66])])]

/-- Weather payload of unexpected shape: the temperature field holds a
non-numeric string, so `float(temp)` raises `ValueError`. -/
def badTempBody : PyVal :=
  .dict [("current", .dict [("temperature_2m", .str "abc")])]

/-- Weather payload with the temperature field missing entirely. -/
def missTempBody : PyVal :=
  .dict [("current", .dict [("time", .str "T1")])]

/-- Places payload of a successful Overpass call that found no attractions. -/
def emptyPlacesBody : PyVal := .dict [("elements", .list [])]

/-- Environment whose geocoder finds nothing. -/
def envNoGeo : Env :=
  { geocode := fun _ => Option.none, wNow := 0, wFetch := fun _ => .exc,
    wFailClock := fun _ => 0, pNow := 0, pFetch := fun _ => .exc,
    pFailClock := fun _ => 0, dw := 0, dp := 0 }

/-- Environment where geocoding succeeds and the weather provider returns the
malformed `badTempBody` on every attempt. -/
def envBadTemp : Env :=
  { geocode := fun _ => some (1, 2), wNow := 0, wFetch := fun _ => .ok badTempBody,
    wFailClock := fun _ => 0, pNow := 0, pFetch := fun _ => .exc,
    pFailClock := fun _ => 0, dw := 0, dp := 0 }

/-- Environment where geocoding succeeds and the places provider succeeds with
an empty element list while the weather provider fails. -/
def envEmptyPlaces : Env :=
  { geocode := fun _ => some (1, 2), wNow := 0, wFetch := fun _ => .exc,
    wFailClock := fun _ => 0, pNow := 0, pFetch := fun _ => .ok emptyPlacesBody,
    pFailClock := fun _ => 0, dw := 0, dp := 0 }

/-- Environment where geocoding succeeds; the data-source oracles are
immaterial for routing-level statements. -/
def envGeoOk : Env :=
  { geocode := fun _ => some (1, 2), wNow := 0, wFetch := fun _ => .exc,
    wFailClock := fun _ => 0, pNow := 0, pFetch := fun _ => .exc,
    pFailClock := fun _ => 0, dw := 0, dp := 0 }

/-- Substring containment test `strIn` agrees with the infix relation. -/
theorem strIn_iff (k s : String) : strIn k s = true ↔ k.data <:+: s.data := by
  unfold strIn
  rw [List.any_eq_true]
  constructor
  · rintro ⟨t, ht, hp⟩
    rw [List.mem_tails] at ht
    rw [List.isPrefixOf_iff_prefix] at hp
    exact List.infix_iff_prefix_suffix.mpr ⟨t, hp, ht⟩
  · intro h
    obtain ⟨t, hp, ht⟩ := List.infix_iff_prefix_suffix.mp h
    exact ⟨t, (List.mem_tails t s.data).mpr ht, (List.isPrefixOf_iff_prefix).mpr hp⟩

/-- An index found by `pyIndexOf` is in range. -/
theorem pyIndexOf_lt_length (x : PyVal) :
    ∀ (l : List PyVal) (i : ℕ), pyIndexOf x l = some i → i < l.length := by
  intro l
  induction l with
  | nil => intro i h; cases h
  | cons y ys ih =>
    intro i h
    unfold pyIndexOf at h
    by_cases hb : pyBeq y x = true
    · rw [if_pos hb] at h
      cases h
      simp
    · rw [if_neg hb] at h
      match hi : pyIndexOf x ys with
      | Option.none => rw [hi] at h; cases h
      | some j =>
        rw [hi] at h
        cases h
        have := ih j hi
        simp only [List.length_cons]
        omega

/-- Appending on the right keeps the first character. -/
theorem str_head_append (a b : String) (c : Char) (h : a.data.head? = some c) :
    (a ++ b).data.head? = some c := by
  show (a.data ++ b.data).head? = some c
  cases ha : a.data with
  | nil => rw [ha] at h; cases h
  | cons x xs =>
    rw [ha] at h
    simp only [List.head?_cons] at h
    simp [List.cons_append, h]

/-- First character of the weather section. -/
theorem weatherSection_head (dest wt : String) :
    (weatherSection dest wt).data.head? = some 'W' := by
  unfold weatherSection
  apply str_head_append
  apply str_head_append
  apply str_head_append
  apply str_head_append
  rfl

/-- First character of the places section. -/
theorem placesSection_head (dest : String) (pl : List PyVal) :
    (placesSection dest pl).data.head? = some 'T' := by
  unfold placesSection
  apply str_head_append
  apply str_head_append
  rfl

/-- First character of the apology string. -/
theorem apologyString_head : apologyString.data.head? = some 'S' := rfl

/-- Joining keeps the first string's first character. -/
theorem joinWith_cons_head (sep x : String) (xs : List String) (c : Char)
    (h : x.data.head? = some c) :
    (joinWith sep (x :: xs)).data.head? = some c := by
  cases xs with
  | nil => simpa [joinWith] using h
  | cons y ys =>
    show ((x ++ sep) ++ joinWith sep (y :: ys)).data.head? = some c
    exact str_head_append _ _ _ (str_head_append _ _ _ h)

/-- A compiled response that starts with a section is never the apology. -/
theorem joined_ne_apology (x : String) (xs : List String) (c : Char)
    (hx : x.data.head? = some c) (hc : ¬ c = 'S') :
    ¬ joinWith "\n\n" (x :: xs) = apologyString := by
  intro h
  have hh := joinWith_cons_head "\n\n" x xs c hx
  rw [h, apologyString_head] at hh
  exact hc (Option.some.inj hh.symm)

/-- Two strings whose first characters differ are different. -/
theorem ne_of_head (a b : String) (c d : Char) (ha : a.data.head? = some c)
    (hb : b.data.head? = some d) (hcd : ¬ c = d) : ¬ a = b := by
  intro h
  rw [h, hb] at ha
  exact hcd (Option.some.inj ha).symm

/-- Compilation with falsy weather text and no places yields the apology. -/
theorem compileParts_false_nil (dest : String) (wt : Option String)
    (hw : optTruthy wt = false) : compileParts dest wt [] = apologyString := by
  simp [compileParts, hw]

/-- Compilation with falsy weather text and some places yields the places
section alone. -/
theorem compileParts_false_cons (dest : String) (wt : Option String) (p : PyVal)
    (ps : List PyVal) (hw : optTruthy wt = false) :
    compileParts dest wt (p :: ps) = placesSection dest (p :: ps) := by
  simp [compileParts, hw, joinWith]

/-- Compilation with truthy weather text and no places yields the weather
section alone. -/
theorem compileParts_true_nil (dest : String) (wt : Option String)
    (hw : optTruthy wt = true) :
    compileParts dest wt [] = weatherSection dest (wt.getD "") := by
  simp [compileParts, hw, joinWith]

/-- Compilation with truthy weather text and some places joins both sections. -/
theorem compileParts_true_cons (dest : String) (wt : Option String) (p : PyVal)
    (ps : List PyVal) (hw : optTruthy wt = true) :
    compileParts dest wt (p :: ps) =
      joinWith "\n\n" [weatherSection dest (wt.getD ""), placesSection dest (p :: ps)] := by
  simp [compileParts, hw]

/-- Response compilation returns the apology exactly when the weather text is
falsy and the places list empty (app.py lines 269-277). -/
theorem compileParts_eq_apology (dest : String) (wt : Option String) (pl : List PyVal) :
    compileParts dest wt pl = apologyString ↔ (optTruthy wt = false ∧ pl = []) := by
  cases hw : optTruthy wt
  · cases pl with
    | nil => simp [compileParts_false_nil dest wt hw]
    | cons p ps =>
      rw [compileParts_false_cons dest wt p ps hw]
      constructor
      · intro h
        exact absurd h (ne_of_head _ _ 'T' 'S' (placesSection_head dest (p :: ps))
          apologyString_head (by decide))
      · rintro ⟨_, h⟩
        exact absurd h (List.cons_ne_nil p ps)
  · cases pl with
    | nil =>
      rw [compileParts_true_nil dest wt hw]
      constructor
      · intro h
        exact absurd h (ne_of_head _ _ 'W' 'S' (weatherSection_head dest (wt.getD ""))
          apologyString_head (by decide))
      · rintro ⟨h, _⟩
        exact absurd h (by decide)
    | cons p ps =>
      rw [compileParts_true_cons dest wt p ps hw]
      constructor
      · intro h
        exact absurd h (joined_ne_apology _ _ 'W' (weatherSection_head dest (wt.getD ""))
          (by decide))
      · rintro ⟨h, _⟩
        exact absurd h (by decide)

/-- C9: For the input "I'm going to Bangalore!", the parser returns destination
"bangalore" and intent `both`: punctuation is replaced by spaces, the text is
lowercased, the multi-word pattern "going to X" (first in `destPatterns`, ahead
of the generic "in"/"at"/"to" patterns) captures "bangalore " from the
normalized text, and whitespace is collapsed and stripped before returning. -/
theorem C9_bangalore :
    parse_user_query "I'm going to Bangalore!" = ("bangalore", "both")
    ∧ findFirstPat destPatterns (normQuery "I'm going to Bangalore!").data
        = some ("bangalore ").data
    ∧ searchPat (("going to").data) (normQuery "I'm going to Bangalore!").data
        = some ("bangalore ").data := by
  refine ⟨rfl, rfl, rfl⟩

/-- C3, counterexample: on a payload whose current time "T5" matches no hourly
slot (`pyIndexOf` finds nothing), `get_weather` reports the probability of the
FIRST slot (55%), not "N/A" as the claim states — the source falls back to
index 0 (`times.index(current_time) if current_time in times else 0`). -/
theorem C3_counterexample :
    get_weather 0 (fun _ => .ok c3body) (fun _ => 0) ⟨0, 0⟩ =
      ⟨.ok (some "20°C with a chance of 55% to rain"), ⟨0, 0⟩, 1, []⟩
    ∧ pyIndexOf (.str "T5") [.str "T1", .str "T2"] = Option.none
    ∧ ¬ "20°C with a chance of 55% to rain" = "20°C with a chance of N/A to rain" := by
  refine ⟨rfl, rfl, by decide⟩

/-- C3, amended: when the current time is truthy and the hourly lists are
non-empty of equal length, the probability is taken from the slot whose time
equals the current time; if NO slot matches, it is taken from the FIRST slot
(index 0), not reported as "N/A".  ("N/A" arises only when the guard fails or
the selected value is not numeric.) -/
theorem C3_slot_selection (ct : PyVal) (ts ps : List PyVal) (h1 : pyTruthy ct = true)
    (h2 : ts.length = ps.length) (h3 : 0 < ts.length) :
    (∀ i, pyIndexOf ct ts = some i →
      selectProb ct (.list ts) (.list ps) = ps.getD i .none)
    ∧ (pyIndexOf ct ts = Option.none →
      selectProb ct (.list ts) (.list ps) = ps.getD 0 .none) := by
  have h3p : 0 < ps.length := h2 ▸ h3
  have hg : (pyTruthy ct && (ts.length == ps.length) && decide (0 < ts.length)) = true := by
    simp [h1, h2, h3, h3p]
  constructor
  · intro i hi
    have hlt : i < ps.length := h2 ▸ pyIndexOf_lt_length ct ts i hi
    simp only [selectProb, hg, if_true, hi, Option.getD_some]
    rw [if_pos (by simpa using hlt)]
  · intro hi
    have hlt : 0 < ps.length := h2 ▸ h3
    simp only [selectProb, hg, if_true, hi, Option.getD_none]
    rw [if_pos (by simpa using hlt)]

/-- C3, witness: the slot-selection theorem applied at a concrete matching
input. -/
theorem C3_witness :
    ((∀ i, pyIndexOf (.str "T1") [.str "T1", .str "T2"] = some i →
      selectProb (.str "T1") (.list [.str "T1", .str "T2"]) (.list [.num 55, .num 66])
        = [PyVal.num 55, PyVal.num 66].getD i .none)
    ∧ (pyIndexOf (.str "T1") [.str "T1", .str "T2"] = Option.none →
      selectProb (.str "T1") (.list [.str "T1", .str "T2"]) (.list [.num 55, .num 66])
        = [PyVal.num 55, PyVal.num 66].getD 0 .none)) := by
  exact C3_slot_selection (.str "T1") [.str "T1", .str "T2"] [.num 55, .num 66]
    rfl rfl (by decide)

/-- C6: whenever geocoding returns no coordinates for the extracted
destination, `parent_tourism_agent` returns exactly the fixed "place does not
exist" string, for every intent override, with no data-source call attempted
and the breaker table untouched. -/
theorem C6_no_geocode (env : Env) (cbs : CBs) (input : String) (intentArg : Option String)
    (h : env.geocode (parse_user_query input).1 = Option.none) :
    parent_tourism_agent env cbs input intentArg =
      ⟨.ok noPlaceString, cbs, Option.none, false, false, Option.none⟩ := by
  simp only [parent_tourism_agent, h]

/-- C6, witness: the theorem applied to a geocoder that finds nothing. -/
theorem C6_witness :
    parent_tourism_agent envNoGeo cbs0 "visit atlantis" (some "weather") =
      ⟨.ok noPlaceString, cbs0, Option.none, false, false, Option.none⟩ :=
  C6_no_geocode envNoGeo cbs0 "visit atlantis" (some "weather") rfl

/-- C2, counterexample: with the weather worker hanging (completion at t=100)
and the places worker completing at t=30 — past the claimed 20-second deadline
measured from fan-out start — the places result is still included (its wait
starts only after the 15-second weather wait, so its effective deadline is
35s), and the response is not ready until t=100 because the executor joins the
hanging worker on exit. -/
theorem C2_counterexample :
    (bothPath 100 30 (.ok (some "21°C")) (.ok [.str "museum"])).2.1 = [.str "museum"]
    ∧ ¬ ((30 : ℚ) ≤ 20)
    ∧ (bothPath 100 30 (.ok (some "21°C")) (.ok [.str "museum"])).2.2 = 100 := by
  refine ⟨by norm_num [bothPath], by norm_num, by norm_num [bothPath]⟩

/-- C2, amended: on the fan-out path the weather result is waited for at most
15 seconds from fan-out start, but the places deadline is measured from the
END of the weather wait: the places result is discarded exactly when its
completion exceeds `min dw 15 + 20`; and a worker that runs past its deadline
DOES block the overall response — the response is ready no earlier than both
workers' completion times (executor shutdown joins them). -/
theorem C2_deadlines (dw dp : ℚ) (wRes : Except PyErr (Option String))
    (pRes : Except PyErr (List PyVal)) :
    (¬ dw ≤ 15 → (bothPath dw dp wRes pRes).1 = Option.none)
    ∧ (¬ dp ≤ min dw 15 + 20 → (bothPath dw dp wRes pRes).2.1 = [])
    ∧ (dp ≤ min dw 15 + 20 →
        (bothPath dw dp wRes pRes).2.1 = (match pRes with | .ok v => v | .error _ => []))
    ∧ dw ≤ (bothPath dw dp wRes pRes).2.2 ∧ dp ≤ (bothPath dw dp wRes pRes).2.2 := by
  refine ⟨fun h => by simp [bothPath, h], fun h => by simp [bothPath, h],
    fun h => by simp [bothPath, h], ?_, ?_⟩
  · exact le_trans (le_max_left dw dp) (le_max_right _ _)
  · exact le_trans (le_max_right dw dp) (le_max_right _ _)

/-- C2, witness: the deadline theorem applied at concrete completion times. -/
theorem C2_witness :
    ((bothPath 100 30 (.ok Option.none) (.ok [])).1 = Option.none)
    ∧ ((bothPath 16 36 (.ok Option.none) (.ok [.str "m"])).2.1 = [])
    ∧ ((100 : ℚ) ≤ (bothPath 100 30 (.ok Option.none) (.ok [])).2.2) := by
  refine ⟨(C2_deadlines 100 30 (.ok Option.none) (.ok [])).1 (by norm_num),
    (C2_deadlines 16 36 (.ok Option.none) (.ok [.str "m"])).2.1 (by norm_num),
    (C2_deadlines 100 30 (.ok Option.none) (.ok [])).2.2.2.1⟩

/-- Final iteration of the weather retry loop: one more request, no sleep. -/
theorem weatherLoop_single (fetch : ℕ → Fetch) (clk : ℕ → ℚ) (cb : CB) (att : ℕ)
    (sl : List ℚ) (i : ℕ) :
    (weatherLoop fetch clk cb att sl [i]).attempts = att + 1
    ∧ (weatherLoop fetch clk cb att sl [i]).sleeps = sl := by
  simp only [weatherLoop]
  rcases h0 : fetch i with _ | d
  · simp
  · rcases hb : weatherBody d with e | o
    · simp [hb]
    · rcases o with _ | s <;> simp [hb]

/-- One non-final iteration of the weather retry loop either terminates the
call (one more request, no further sleep) or sleeps `backoff * (i + 1)` and
continues with an updated breaker. -/
theorem weatherLoop_step (fetch : ℕ → Fetch) (clk : ℕ → ℚ) (cb : CB) (att : ℕ)
    (sl : List ℚ) (i : ℕ) (rest : List ℕ) (hrest : ¬ rest = []) :
    ((weatherLoop fetch clk cb att sl (i :: rest)).attempts = att + 1
      ∧ (weatherLoop fetch clk cb att sl (i :: rest)).sleeps = sl)
    ∨ ∃ cb', weatherLoop fetch clk cb att sl (i :: rest)
        = weatherLoop fetch clk cb' (att + 1) (sl ++ [backoff * ((i : ℚ) + 1)]) rest := by
  simp only [weatherLoop]
  rcases h0 : fetch i with _ | d
  · right
    simp only [List.isEmpty_iff, hrest, if_neg]
    exact ⟨_, rfl⟩
  · rcases hb : weatherBody d with e | o
    · left; simp [hb]
    · rcases o with _ | s <;> (left; simp [hb])

/-- Final iteration of the places retry loop: one more request, no sleep. -/
theorem placesLoop_single (fetch : ℕ → Fetch) (clk : ℕ → ℚ) (cb : CB) (att : ℕ)
    (sl : List ℚ) (i : ℕ) :
    (placesLoop fetch clk cb att sl [i]).attempts = att + 1
    ∧ (placesLoop fetch clk cb att sl [i]).sleeps = sl := by
  simp only [placesLoop]
  rcases h0 : fetch i with _ | d
  · simp [placesCatches]
  · rcases hb : placesBody d 5 with e | o
    · cases e <;> simp [hb, placesCatches]
    · simp [hb]

/-- One non-final iteration of the places retry loop either terminates the
call or sleeps `backoff * (i + 1)` and continues with an updated breaker. -/
theorem placesLoop_step (fetch : ℕ → Fetch) (clk : ℕ → ℚ) (cb : CB) (att : ℕ)
    (sl : List ℚ) (i : ℕ) (rest : List ℕ) (hrest : ¬ rest = []) :
    ((placesLoop fetch clk cb att sl (i :: rest)).attempts = att + 1
      ∧ (placesLoop fetch clk cb att sl (i :: rest)).sleeps = sl)
    ∨ ∃ cb', placesLoop fetch clk cb att sl (i :: rest)
        = placesLoop fetch clk cb' (att + 1) (sl ++ [backoff * ((i : ℚ) + 1)]) rest := by
  simp only [placesLoop]
  rcases h0 : fetch i with _ | d
  · right
    simp only [placesCatches, List.isEmpty_iff, hrest, if_neg, if_pos]
    exact ⟨_, rfl⟩
  · rcases hb : placesBody d 5 with e | o
    · cases e
      · right
        simp only [hb, placesCatches, List.isEmpty_iff, hrest, if_neg, if_pos]
        exact ⟨_, rfl⟩
      · right
        simp only [hb, placesCatches, List.isEmpty_iff, hrest, if_neg, if_pos]
        exact ⟨_, rfl⟩
      · right
        simp only [hb, placesCatches, List.isEmpty_iff, hrest, if_neg, if_pos]
        exact ⟨_, rfl⟩
      · left; simp [hb, placesCatches]
    · left; simp [hb]

/-- The weather retry loop makes 1, 2 or 3 requests, sleeping 0.7s after the
first failed attempt and 1.4s after the second, and never after the last. -/
theorem weatherLoop_top (fetch : ℕ → Fetch) (clk : ℕ → ℚ) (cb : CB) :
    ((weatherLoop fetch clk cb 0 [] [0, 1, 2]).attempts = 1
      ∧ (weatherLoop fetch clk cb 0 [] [0, 1, 2]).sleeps = [])
    ∨ ((weatherLoop fetch clk cb 0 [] [0, 1, 2]).attempts = 2
      ∧ (weatherLoop fetch clk cb 0 [] [0, 1, 2]).sleeps = [backoff * (((0 : ℕ) : ℚ) + 1)])
    ∨ ((weatherLoop fetch clk cb 0 [] [0, 1, 2]).attempts = 3
      ∧ (weatherLoop fetch clk cb 0 [] [0, 1, 2]).sleeps
          = [backoff * (((0 : ℕ) : ℚ) + 1), backoff * (((1 : ℕ) : ℚ) + 1)]) := by
  rcases weatherLoop_step fetch clk cb 0 [] 0 [1, 2] (by simp) with ⟨ha, hs⟩ | ⟨cb1, heq⟩
  · exact Or.inl ⟨ha, hs⟩
  · rw [heq]
    rcases weatherLoop_step fetch clk cb1 1 ([] ++ [backoff * (((0 : ℕ) : ℚ) + 1)]) 1 [2]
        (by simp) with ⟨ha, hs⟩ | ⟨cb2, heq2⟩
    · refine Or.inr (Or.inl ⟨ha, ?_⟩)
      simpa using hs
    · rw [heq2]
      have h3 := weatherLoop_single fetch clk cb2 2
        (([] ++ [backoff * (((0 : ℕ) : ℚ) + 1)]) ++ [backoff * (((1 : ℕ) : ℚ) + 1)]) 2
      refine Or.inr (Or.inr ⟨h3.1, ?_⟩)
      rw [h3.2]
      simp

/-- The places retry loop makes 1, 2 or 3 requests, sleeping 0.7s after the
first failed attempt and 1.4s after the second, and never after the last. -/
theorem placesLoop_top (fetch : ℕ → Fetch) (clk : ℕ → ℚ) (cb : CB) :
    ((placesLoop fetch clk cb 0 [] [0, 1, 2]).attempts = 1
      ∧ (placesLoop fetch clk cb 0 [] [0, 1, 2]).sleeps = [])
    ∨ ((placesLoop fetch clk cb 0 [] [0, 1, 2]).attempts = 2
      ∧ (placesLoop fetch clk cb 0 [] [0, 1, 2]).sleeps = [backoff * (((0 : ℕ) : ℚ) + 1)])
    ∨ ((placesLoop fetch clk cb 0 [] [0, 1, 2]).attempts = 3
      ∧ (placesLoop fetch clk cb 0 [] [0, 1, 2]).sleeps
          = [backoff * (((0 : ℕ) : ℚ) + 1), backoff * (((1 : ℕ) : ℚ) + 1)]) := by
  rcases placesLoop_step fetch clk cb 0 [] 0 [1, 2] (by simp) with ⟨ha, hs⟩ | ⟨cb1, heq⟩
  · exact Or.inl ⟨ha, hs⟩
  · rw [heq]
    rcases placesLoop_step fetch clk cb1 1 ([] ++ [backoff * (((0 : ℕ) : ℚ) + 1)]) 1 [2]
        (by simp) with ⟨ha, hs⟩ | ⟨cb2, heq2⟩
    · refine Or.inr (Or.inl ⟨ha, ?_⟩)
      simpa using hs
    · rw [heq2]
      have h3 := placesLoop_single fetch clk cb2 2
        (([] ++ [backoff * (((0 : ℕ) : ℚ) + 1)]) ++ [backoff * (((1 : ℕ) : ℚ) + 1)]) 2
      refine Or.inr (Or.inr ⟨h3.1, ?_⟩)
      rw [h3.2]
      simp

/-- The weather retry loop only appends to the sleep log. -/
theorem weatherLoop_sleeps_prefix (fetch : ℕ → Fetch) (clk : ℕ → ℚ) :
    ∀ (l : List ℕ) (cb : CB) (att : ℕ) (sl : List ℚ),
      ∃ t, (weatherLoop fetch clk cb att sl l).sleeps = sl ++ t := by
  intro l
  induction l with
  | nil =>
    intro cb att sl
    exact ⟨[], by simp [weatherLoop]⟩
  | cons i rest ih =>
    intro cb att sl
    simp only [weatherLoop]
    rcases h0 : fetch i with _ | d
    · cases rest with
      | nil => exact ⟨[], by simp⟩
      | cons j rs =>
        obtain ⟨t, ht⟩ := ih ⟨cb.failures + 1,
          if 3 ≤ cb.failures + 1 then clk i + 30 else cb.openedUntil⟩ (att + 1)
          (sl ++ [backoff * ((i : ℚ) + 1)])
        refine ⟨backoff * ((i : ℚ) + 1) :: t, ?_⟩
        simp only [List.isEmpty_cons, Bool.false_eq_true, if_false]
        rw [ht]
        simp
    · rcases hb : weatherBody d with e | o
      · exact ⟨[], by simp [hb]⟩
      · rcases o with _ | s
        · exact ⟨[], by simp [hb]⟩
        · exact ⟨[], by simp [hb]⟩

/-- The places retry loop only appends to the sleep log. -/
theorem placesLoop_sleeps_prefix (fetch : ℕ → Fetch) (clk : ℕ → ℚ) :
    ∀ (l : List ℕ) (cb : CB) (att : ℕ) (sl : List ℚ),
      ∃ t, (placesLoop fetch clk cb att sl l).sleeps = sl ++ t := by
  intro l
  induction l with
  | nil =>
    intro cb att sl
    exact ⟨[], by simp [placesLoop]⟩
  | cons i rest ih =>
    intro cb att sl
    simp only [placesLoop]
    rcases h0 : fetch i with _ | d
    · cases rest with
      | nil => exact ⟨[], by simp [placesCatches]⟩
      | cons j rs =>
        obtain ⟨t, ht⟩ := ih ⟨cb.failures + 1,
          if 3 ≤ cb.failures + 1 then clk i + 30 else cb.openedUntil⟩ (att + 1)
          (sl ++ [backoff * ((i : ℚ) + 1)])
        refine ⟨backoff * ((i : ℚ) + 1) :: t, ?_⟩
        simp only [placesCatches, List.isEmpty_cons, Bool.false_eq_true, if_false, if_true]
        rw [ht]
        simp
    · rcases hb : placesBody d 5 with e | o
      · cases e
        case attributeError => exact ⟨[], by simp [hb, placesCatches]⟩
        all_goals {
          cases rest with
          | nil => exact ⟨[], by simp [hb, placesCatches]⟩
          | cons j rs =>
            obtain ⟨t, ht⟩ := ih ⟨cb.failures + 1,
              if 3 ≤ cb.failures + 1 then clk i + 30 else cb.openedUntil⟩ (att + 1)
              (sl ++ [backoff * ((i : ℚ) + 1)])
            refine ⟨backoff * ((i : ℚ) + 1) :: t, ?_⟩
            simp only [hb, placesCatches, List.isEmpty_cons, Bool.false_eq_true,
              if_false, if_true]
            rw [ht]
            simp
        }
      · exact ⟨[], by simp [hb]⟩

/-- A failed non-final weather attempt records its sleep and continues. -/
theorem weatherLoop_exc_unfold (fetch : ℕ → Fetch) (clk : ℕ → ℚ) (cb : CB) (att : ℕ)
    (sl : List ℚ) (i j : ℕ) (rs : List ℕ) (hf : fetch i = .exc) :
    weatherLoop fetch clk cb att sl (i :: j :: rs)
      = weatherLoop fetch clk
          ⟨cb.failures + 1, if 3 ≤ cb.failures + 1 then clk i + 30 else cb.openedUntil⟩
          (att + 1) (sl ++ [backoff * ((i : ℚ) + 1)]) (j :: rs) := by
  conv_lhs => rw [weatherLoop]
  rw [hf]
  rfl

/-- A failed non-final places attempt records its sleep and continues. -/
theorem placesLoop_exc_unfold (fetch : ℕ → Fetch) (clk : ℕ → ℚ) (cb : CB) (att : ℕ)
    (sl : List ℚ) (i j : ℕ) (rs : List ℕ) (hf : fetch i = .exc) :
    placesLoop fetch clk cb att sl (i :: j :: rs)
      = placesLoop fetch clk
          ⟨cb.failures + 1, if 3 ≤ cb.failures + 1 then clk i + 30 else cb.openedUntil⟩
          (att + 1) (sl ++ [backoff * ((i : ℚ) + 1)]) (j :: rs) := by
  conv_lhs => rw [placesLoop]
  rw [hf]
  rfl

/-- C5: for each resource, the call is short-circuited (immediate absent
result, zero requests, breaker untouched) exactly when `openedUntil > now`;
when `openedUntil ≤ now` the operation is attempted at least once; and 3
consecutive failures from a fresh breaker leave it open until the third
failure's clock reading plus 30 seconds, so a later call before that instant
short-circuits and one at or after it is attempted (by the first two
clauses). -/
theorem C5_breaker (now : ℚ) (wF pF : ℕ → Fetch) (wC pC : ℕ → ℚ) (cbw cbp : CB) :
    (now < cbw.openedUntil →
      get_weather now wF wC cbw = ⟨.ok Option.none, cbw, 0, []⟩)
    ∧ (¬ now < cbw.openedUntil → 1 ≤ (get_weather now wF wC cbw).attempts)
    ∧ (¬ now < cbw.openedUntil → cbw.failures = 0 → (∀ i, wF i = .exc) →
      (get_weather now wF wC cbw).cb = ⟨3, wC 2 + 30⟩)
    ∧ (now < cbp.openedUntil →
      get_tourist_places now pF pC cbp = ⟨.ok [], cbp, 0, []⟩)
    ∧ (¬ now < cbp.openedUntil → 1 ≤ (get_tourist_places now pF pC cbp).attempts)
    ∧ (¬ now < cbp.openedUntil → cbp.failures = 0 → (∀ i, pF i = .exc) →
      (get_tourist_places now pF pC cbp).cb = ⟨3, pC 2 + 30⟩) := by
  refine ⟨?_, ?_, ?_, ?_, ?_, ?_⟩
  · intro h
    simp [get_weather, if_pos h]
  · intro h
    simp only [get_weather, if_neg h]
    rcases weatherLoop_top wF wC cbw with ⟨ha, _⟩ | ⟨ha, _⟩ | ⟨ha, _⟩ <;> omega
  · intro h hf hall
    simp only [get_weather, if_neg h]
    simp [weatherLoop, hall 0, hall 1, hall 2, hf]
  · intro h
    simp [get_tourist_places, if_pos h]
  · intro h
    simp only [get_tourist_places, if_neg h]
    rcases placesLoop_top pF pC cbp with ⟨ha, _⟩ | ⟨ha, _⟩ | ⟨ha, _⟩ <;> omega
  · intro h hf hall
    simp only [get_tourist_places, if_neg h]
    simp [placesLoop, hall 0, hall 1, hall 2, hf, placesCatches]

/-- C5, witness: the breaker theorem applied at concrete clocks and states. -/
theorem C5_witness :
    get_weather 10 (fun _ => .exc) (fun _ => 0) ⟨3, 20⟩ = ⟨.ok Option.none, ⟨3, 20⟩, 0, []⟩
    ∧ 1 ≤ (get_weather 25 (fun _ => .exc) (fun _ => 0) ⟨3, 20⟩).attempts
    ∧ (get_weather 25 (fun _ => .exc) (fun _ => 5) ⟨0, 20⟩).cb = ⟨3, (5 : ℚ) + 30⟩
    ∧ get_tourist_places 10 (fun _ => .exc) (fun _ => 0) ⟨3, 20⟩
        = ⟨.ok [], ⟨3, 20⟩, 0, []⟩ := by
  refine ⟨(C5_breaker 10 (fun _ => .exc) (fun _ => .exc) (fun _ => 0) (fun _ => 0)
      ⟨3, 20⟩ ⟨0, 0⟩).1 (by norm_num),
    (C5_breaker 25 (fun _ => .exc) (fun _ => .exc) (fun _ => 0) (fun _ => 0)
      ⟨3, 20⟩ ⟨0, 0⟩).2.1 (by norm_num), ?_, ?_⟩
  · exact (C5_breaker 25 (fun _ => .exc) (fun _ => .exc) (fun _ => 5) (fun _ => 5)
      ⟨0, 20⟩ ⟨0, 0⟩).2.2.1 (by norm_num) rfl (fun _ => rfl)
  · exact (C5_breaker 10 (fun _ => .exc) (fun _ => .exc) (fun _ => 0) (fun _ => 0)
      ⟨0, 0⟩ ⟨3, 20⟩).2.2.2.1 (by norm_num)

/-- C7: with a closed breaker each call attempts the operation between 1 and
3 times; sleeps happen only between failed attempts (strictly fewer sleeps
than attempts, so never after the final one, and none on a short-circuited
call), and the j-th recorded sleep is `backoff * (j + 1)` seconds — 0.7s after
the first failed attempt, 1.4s after the second (linear backoff); moreover a
sleep DOES occur after a failed first attempt (0.7s) and after a failed
second attempt (then 1.4s follows it). -/
theorem C7_retry_backoff (now : ℚ) (wF pF : ℕ → Fetch) (wC pC : ℕ → ℚ) (cbw cbp : CB) :
    (now < cbw.openedUntil → (get_weather now wF wC cbw).attempts = 0
      ∧ (get_weather now wF wC cbw).sleeps = [])
    ∧ (¬ now < cbw.openedUntil →
      1 ≤ (get_weather now wF wC cbw).attempts
      ∧ (get_weather now wF wC cbw).attempts ≤ 3
      ∧ (get_weather now wF wC cbw).sleeps.length + 1 ≤ (get_weather now wF wC cbw).attempts
      ∧ (get_weather now wF wC cbw).sleeps
          = (List.range (get_weather now wF wC cbw).sleeps.length).map
              (fun j => backoff * ((j : ℚ) + 1)))
    ∧ (now < cbp.openedUntil → (get_tourist_places now pF pC cbp).attempts = 0
      ∧ (get_tourist_places now pF pC cbp).sleeps = [])
    ∧ (¬ now < cbp.openedUntil →
      1 ≤ (get_tourist_places now pF pC cbp).attempts
      ∧ (get_tourist_places now pF pC cbp).attempts ≤ 3
      ∧ (get_tourist_places now pF pC cbp).sleeps.length + 1
          ≤ (get_tourist_places now pF pC cbp).attempts
      ∧ (get_tourist_places now pF pC cbp).sleeps
          = (List.range (get_tourist_places now pF pC cbp).sleeps.length).map
              (fun j => backoff * ((j : ℚ) + 1)))
    ∧ backoff * (((0 : ℕ) : ℚ) + 1) = 7 / 10
    ∧ backoff * (((1 : ℕ) : ℚ) + 1) = 14 / 10
    ∧ (¬ now < cbw.openedUntil → wF 0 = .exc →
      ∃ t, (get_weather now wF wC cbw).sleeps = backoff * (((0 : ℕ) : ℚ) + 1) :: t)
    ∧ (¬ now < cbw.openedUntil → wF 0 = .exc → wF 1 = .exc →
      ∃ t, (get_weather now wF wC cbw).sleeps
        = backoff * (((0 : ℕ) : ℚ) + 1) :: backoff * (((1 : ℕ) : ℚ) + 1) :: t)
    ∧ (¬ now < cbp.openedUntil → pF 0 = .exc →
      ∃ t, (get_tourist_places now pF pC cbp).sleeps
        = backoff * (((0 : ℕ) : ℚ) + 1) :: t)
    ∧ (¬ now < cbp.openedUntil → pF 0 = .exc → pF 1 = .exc →
      ∃ t, (get_tourist_places now pF pC cbp).sleeps
        = backoff * (((0 : ℕ) : ℚ) + 1) :: backoff * (((1 : ℕ) : ℚ) + 1) :: t) := by
  refine ⟨?_, ?_, ?_, ?_, by norm_num [backoff], by norm_num [backoff], ?_, ?_, ?_, ?_⟩
  · intro h
    simp [get_weather, if_pos h]
  · intro h
    simp only [get_weather, if_neg h]
    rcases weatherLoop_top wF wC cbw with ⟨ha, hs⟩ | ⟨ha, hs⟩ | ⟨ha, hs⟩ <;>
      rw [ha, hs] <;> exact ⟨by norm_num, by norm_num, by simp, by rfl⟩
  · intro h
    simp [get_tourist_places, if_pos h]
  · intro h
    simp only [get_tourist_places, if_neg h]
    rcases placesLoop_top pF pC cbp with ⟨ha, hs⟩ | ⟨ha, hs⟩ | ⟨ha, hs⟩ <;>
      rw [ha, hs] <;> exact ⟨by norm_num, by norm_num, by simp, by rfl⟩
  · intro h hf0
    simp only [get_weather, if_neg h]
    rw [weatherLoop_exc_unfold wF wC cbw 0 [] 0 1 [2] hf0]
    obtain ⟨t, ht⟩ := weatherLoop_sleeps_prefix wF wC [1, 2]
      ⟨cbw.failures + 1, if 3 ≤ cbw.failures + 1 then wC 0 + 30 else cbw.openedUntil⟩ 1
      ([] ++ [backoff * (((0 : ℕ) : ℚ) + 1)])
    exact ⟨t, by rw [ht]; simp⟩
  · intro h hf0 hf1
    simp only [get_weather, if_neg h]
    rw [weatherLoop_exc_unfold wF wC cbw 0 [] 0 1 [2] hf0]
    rw [weatherLoop_exc_unfold wF wC
      ⟨cbw.failures + 1, if 3 ≤ cbw.failures + 1 then wC 0 + 30 else cbw.openedUntil⟩ 1
      ([] ++ [backoff * (((0 : ℕ) : ℚ) + 1)]) 1 2 [] hf1]
    obtain ⟨t, ht⟩ := weatherLoop_sleeps_prefix wF wC [2] _ 2
      (([] ++ [backoff * (((0 : ℕ) : ℚ) + 1)]) ++ [backoff * (((1 : ℕ) : ℚ) + 1)])
    exact ⟨t, by rw [ht]; simp⟩
  · intro h hf0
    simp only [get_tourist_places, if_neg h]
    rw [placesLoop_exc_unfold pF pC cbp 0 [] 0 1 [2] hf0]
    obtain ⟨t, ht⟩ := placesLoop_sleeps_prefix pF pC [1, 2]
      ⟨cbp.failures + 1, if 3 ≤ cbp.failures + 1 then pC 0 + 30 else cbp.openedUntil⟩ 1
      ([] ++ [backoff * (((0 : ℕ) : ℚ) + 1)])
    exact ⟨t, by rw [ht]; simp⟩
  · intro h hf0 hf1
    simp only [get_tourist_places, if_neg h]
    rw [placesLoop_exc_unfold pF pC cbp 0 [] 0 1 [2] hf0]
    rw [placesLoop_exc_unfold pF pC
      ⟨cbp.failures + 1, if 3 ≤ cbp.failures + 1 then pC 0 + 30 else cbp.openedUntil⟩ 1
      ([] ++ [backoff * (((0 : ℕ) : ℚ) + 1)]) 1 2 [] hf1]
    obtain ⟨t, ht⟩ := placesLoop_sleeps_prefix pF pC [2] _ 2
      (([] ++ [backoff * (((0 : ℕ) : ℚ) + 1)]) ++ [backoff * (((1 : ℕ) : ℚ) + 1)])
    exact ⟨t, by rw [ht]; simp⟩

/-- C7, witness: the retry/backoff theorem applied to an all-failing source
with a closed breaker, and to an open breaker. -/
theorem C7_witness :
    (1 ≤ (get_weather 0 (fun _ => .exc) (fun _ => 0) ⟨0, 0⟩).attempts
      ∧ (get_weather 0 (fun _ => .exc) (fun _ => 0) ⟨0, 0⟩).attempts ≤ 3
      ∧ (get_weather 0 (fun _ => .exc) (fun _ => 0) ⟨0, 0⟩).sleeps.length + 1
          ≤ (get_weather 0 (fun _ => .exc) (fun _ => 0) ⟨0, 0⟩).attempts
      ∧ (get_weather 0 (fun _ => .exc) (fun _ => 0) ⟨0, 0⟩).sleeps
          = (List.range (get_weather 0 (fun _ => .exc) (fun _ => 0) ⟨0, 0⟩).sleeps.length).map
              (fun j => backoff * ((j : ℚ) + 1)))
    ∧ ((get_weather 10 (fun _ => .exc) (fun _ => 0) ⟨3, 20⟩).attempts = 0
      ∧ (get_weather 10 (fun _ => .exc) (fun _ => 0) ⟨3, 20⟩).sleeps = []) := by
  refine ⟨(C7_retry_backoff 0 (fun _ => .exc) (fun _ => .exc) (fun _ => 0) (fun _ => 0)
      ⟨0, 0⟩ ⟨0, 0⟩).2.1 (by norm_num),
    (C7_retry_backoff 10 (fun _ => .exc) (fun _ => .exc) (fun _ => 0) (fun _ => 0)
      ⟨3, 20⟩ ⟨0, 0⟩).1 (by norm_num)⟩

/-- C1, counterexample: a weather payload whose temperature field is the
non-numeric string "abc" is NOT treated as a transient failure — the
`ValueError` raised by `float(temp)` escapes `get_weather` (only
`requests.RequestException` is caught there) and, on the weather-only path,
`parent_tourism_agent` propagates the raw exception to the caller; the breaker
is not updated either.  The environment `envBadTemp` returns that payload on
every attempt. -/
theorem C1_counterexample :
    (parent_tourism_agent envBadTemp cbs0 "weather in paris" (some "weather")).result
      = .error .valueError
    ∧ (parent_tourism_agent envBadTemp cbs0 "weather in paris" (some "weather")).cbs = cbs0 :=
  ⟨rfl, rfl⟩

/-- C1, amended: malformed upstream responses are NOT consumed by the
retry/breaker path.  A payload whose temperature is missing makes
`get_weather` return an absent result immediately after the first request —
no retry, no sleep, no breaker update; a payload whose processing raises an
exception the weather handler does not catch makes the call escape, and on
the weather-only routing arm `parent_tourism_agent` returns that raw
exception to its caller, again without touching the breaker.  (Only
request-level failures — `Fetch.exc` — take the retry-and-breaker path.) -/
theorem C1_malformed :
    (∀ (now : ℚ) (fetch : ℕ → Fetch) (clk : ℕ → ℚ) (cb : CB) (data : PyVal),
      ¬ now < cb.openedUntil → fetch 0 = .ok data → weatherBody data = .ok Option.none →
      get_weather now fetch clk cb = ⟨.ok Option.none, cb, 1, []⟩)
    ∧ (∀ (env : Env) (cbs : CBs) (input : String) (intentArg : Option String)
        (c : ℚ × ℚ) (data : PyVal) (e : PyErr),
      env.geocode (parse_user_query input).1 = some c →
      branchOf (useIntentOf intentArg (parse_user_query input).2) = .weather →
      ¬ env.wNow < cbs.weather.openedUntil →
      env.wFetch 0 = .ok data → weatherBody data = .error e →
      (parent_tourism_agent env cbs input intentArg).result = .error e
        ∧ (parent_tourism_agent env cbs input intentArg).cbs.weather = cbs.weather) := by
  constructor
  · intro now fetch clk cb data h hf hb
    simp only [get_weather, if_neg h]
    simp [weatherLoop, hf, hb]
  · intro env cbs input intentArg c data e hgeo hbr hnow hf hb
    have hw : get_weather env.wNow env.wFetch env.wFailClock cbs.weather
        = ⟨.error e, cbs.weather, 1, []⟩ := by
      simp only [get_weather, if_neg hnow]
      simp [weatherLoop, hf, hb]
    simp [parent_tourism_agent, hgeo, hbr, hw]

/-- C1, witness: the amended theorem applied to the missing-temperature and
non-numeric-temperature payloads. -/
theorem C1_witness :
    get_weather 0 (fun _ => .ok missTempBody) (fun _ => 0) ⟨0, 0⟩
      = ⟨.ok Option.none, ⟨0, 0⟩, 1, []⟩
    ∧ (parent_tourism_agent envBadTemp cbs0 "weather in paris" (some "wEaThEr ")).result
        = .error .valueError := by
  refine ⟨C1_malformed.1 0 (fun _ => .ok missTempBody) (fun _ => 0) ⟨0, 0⟩ missTempBody
      (by norm_num) rfl rfl, ?_⟩
  exact (C1_malformed.2 envBadTemp cbs0 "weather in paris" (some "wEaThEr ") (1, 2)
    badTempBody .valueError rfl rfl (by decide) rfl rfl).1

/-- C4, counterexample: with intent `places`, a places call that SUCCEEDS
(one attempt, result `.ok []`, breaker reset) but finds zero attractions also
produces the fixed apology string — so the apology does not imply that every
requested source was absent (breaker-open, exhausted or timed out), refuting
the only-if direction of the claim.  `envEmptyPlaces` answers the places call
with `{"elements": []}`. -/
theorem C4_counterexample :
    (parent_tourism_agent envEmptyPlaces cbs0 "best places in rome" (some "places")).result
      = .ok apologyString
    ∧ (get_tourist_places 0 (fun _ => .ok emptyPlacesBody) (fun _ => 0) ⟨0, 0⟩).res = .ok []
    ∧ (get_tourist_places 0 (fun _ => .ok emptyPlacesBody) (fun _ => 0) ⟨0, 0⟩).attempts = 1
    ∧ (get_tourist_places 0 (fun _ => .ok emptyPlacesBody) (fun _ => 0) ⟨0, 0⟩).cb = ⟨0, 0⟩ :=
  ⟨rfl, rfl, rfl, rfl⟩

/-- Compiled result equals the apology exactly when the section pair that
reached compilation has falsy weather text and an empty places list. -/
theorem result_sections_iff (dest : String) (wt : Option String) (pl : List PyVal) :
    ((Except.ok (compileParts dest wt pl) : Except PyErr String) = .ok apologyString
      ↔ ∃ wt' pl', (some (wt, pl) : Option (Option String × List PyVal)) = some (wt', pl')
          ∧ optTruthy wt' = false ∧ pl' = []) := by
  constructor
  · intro hcomp
    have hc := (compileParts_eq_apology dest wt pl).mp (Except.ok.inj hcomp)
    exact ⟨wt, pl, rfl, hc.1, hc.2⟩
  · rintro ⟨wt', pl', heq, hfal, hnil⟩
    have hpair := Option.some.inj heq
    have hw1 : wt = wt' := congrArg Prod.fst hpair
    have hp1 : pl = pl' := congrArg Prod.snd hpair
    subst hw1
    subst hp1
    exact congrArg Except.ok ((compileParts_eq_apology dest wt pl).mpr ⟨hfal, hnil⟩)

/-- C4, amended: after successful geocoding, `parent_tourism_agent` returns
the fixed apology string if and only if no section was produced: the weather
text that reached compilation is falsy AND the places list is empty — whether
a source was absent (breaker-open, exhausted, timed out) or returned an empty
result successfully.  In particular a single absent source while the other
yields data never produces a caller-visible failure, only an omitted
section. -/
theorem C4_apology_iff (env : Env) (cbs : CBs) (input : String) (intentArg : Option String)
    (c : ℚ × ℚ) (h : env.geocode (parse_user_query input).1 = some c) :
    ((parent_tourism_agent env cbs input intentArg).result = .ok apologyString ↔
      ∃ wt pl, (parent_tourism_agent env cbs input intentArg).sections = some (wt, pl)
        ∧ optTruthy wt = false ∧ pl = []) := by
  simp only [parent_tourism_agent, h]
  rcases hbr : branchOf (useIntentOf intentArg (parse_user_query input).2) with _ | _ | _
  · rcases hw : (get_weather env.wNow env.wFetch env.wFailClock cbs.weather).res with e | wt
    · simp [hw]
    · simp only [hw]
      exact result_sections_iff (parse_user_query input).1 wt []
  · rcases hp : (get_tourist_places env.pNow env.pFetch env.pFailClock cbs.places).res
        with e | pl
    · simp [hp]
    · simp only [hp]
      exact result_sections_iff (parse_user_query input).1 Option.none pl
  · exact result_sections_iff (parse_user_query input).1 _ _

/-- C4, witness: the iff applied to the empty-places environment. -/
theorem C4_witness :
    ((parent_tourism_agent envEmptyPlaces cbs0 "best places in rome" (some "places")).result
        = .ok apologyString ↔
      ∃ wt pl, (parent_tourism_agent envEmptyPlaces cbs0 "best places in rome"
          (some "places")).sections = some (wt, pl) ∧ optTruthy wt = false ∧ pl = []) :=
  C4_apology_iff envEmptyPlaces cbs0 "best places in rome" (some "places") (1, 2) rfl

/-- C8: the parser classifies intent as `weather` exactly when the normalized
lowercase text contains a substring from the weather keyword set and none
from the places keyword set, as `places` in the symmetric case, and as
`both` when it contains keywords from both sets or from neither. -/
theorem C8_intent (s : String) :
    ((parse_user_query s).2 = "weather" ↔
      ((∃ k ∈ weather_keywords, k.data <:+: (normQuery s).data)
        ∧ ¬ ∃ k ∈ places_keywords, k.data <:+: (normQuery s).data))
    ∧ ((parse_user_query s).2 = "places" ↔
      ((∃ k ∈ places_keywords, k.data <:+: (normQuery s).data)
        ∧ ¬ ∃ k ∈ weather_keywords, k.data <:+: (normQuery s).data))
    ∧ ((parse_user_query s).2 = "both" ↔
      (((∃ k ∈ weather_keywords, k.data <:+: (normQuery s).data)
          ∧ ∃ k ∈ places_keywords, k.data <:+: (normQuery s).data)
        ∨ ((¬ ∃ k ∈ weather_keywords, k.data <:+: (normQuery s).data)
          ∧ ¬ ∃ k ∈ places_keywords, k.data <:+: (normQuery s).data))) := by
  have hW : (weather_keywords.any (fun k => strIn k (normQuery s)) = true)
      ↔ ∃ k ∈ weather_keywords, k.data <:+: (normQuery s).data := by
    rw [List.any_eq_true]
    exact exists_congr fun k => and_congr_right fun _ => strIn_iff k (normQuery s)
  have hP : (places_keywords.any (fun k => strIn k (normQuery s)) = true)
      ↔ ∃ k ∈ places_keywords, k.data <:+: (normQuery s).data := by
    rw [List.any_eq_true]
    exact exists_congr fun k => and_congr_right fun _ => strIn_iff k (normQuery s)
  have hpq : (parse_user_query s).2 =
      (if (weather_keywords.any (fun k => strIn k (normQuery s)))
          && !(places_keywords.any (fun k => strIn k (normQuery s))) then "weather"
        else if (places_keywords.any (fun k => strIn k (normQuery s)))
          && !(weather_keywords.any (fun k => strIn k (normQuery s))) then "places"
        else "both") := rfl
  rw [hpq]
  cases hwb : weather_keywords.any (fun k => strIn k (normQuery s)) <;>
    cases hpb : places_keywords.any (fun k => strIn k (normQuery s)) <;>
      (simp only [← hW, ← hP]; rw [hwb, hpb]; decide)

/-- C10, counterexample: the ABSENT override does not take the fan-out path —
with `intent=None` and user text "weather in paris" the parsed intent
"weather" routes the request to the synchronous weather arm, not to the
concurrent both-sources arm, refuting the claim for the absent override. -/
theorem C10_counterexample :
    (parent_tourism_agent envGeoOk cbs0 "weather in paris" Option.none).branch
      = some Branch.weather
    ∧ ¬ (Branch.weather = Branch.both) :=
  ⟨rfl, by decide⟩

/-- C10, amended: a NON-EMPTY override whose stripped, lowercased form is
neither "weather" nor "places" (such as "BOTH " or "wether") always routes to
the concurrent fan-out arm — it is never rejected and never causes an error;
the absent (or empty) override instead defers to the parsed intent, taking
the fan-out arm exactly when that intent is "both". -/
theorem C10_override (env : Env) (cbs : CBs) (input : String) (c : ℚ × ℚ) :
    (∀ s : String, env.geocode (parse_user_query input).1 = some c → ¬ s = "" →
      ¬ lowerStr (stripStr s) = "weather" → ¬ lowerStr (stripStr s) = "places" →
      (parent_tourism_agent env cbs input (some s)).branch = some .both)
    ∧ (env.geocode (parse_user_query input).1 = some c →
      (parse_user_query input).2 = "both" →
      (parent_tourism_agent env cbs input Option.none).branch = some .both) := by
  constructor
  · intro s hgeo hne hw hp
    have hu : useIntentOf (some s) (parse_user_query input).2 = lowerStr (stripStr s) := by
      simp [useIntentOf, pyOrStr, hne]
    have hbr : branchOf (lowerStr (stripStr s)) = .both := by
      simp [branchOf, hw, hp]
    simp [parent_tourism_agent, hgeo, hu, hbr]
  · intro hgeo hauto
    have hu : useIntentOf Option.none (parse_user_query input).2 = "both" := by
      rw [useIntentOf, hauto]
      rfl
    have hbr : branchOf "both" = .both := rfl
    simp [parent_tourism_agent, hgeo, hu, hbr]

/-- C10, witness: the override theorem applied to the unrecognized override
"BOTH " and to an absent override over text that parses to intent both. -/
theorem C10_witness :
    (parent_tourism_agent envGeoOk cbs0 "london" (some "BOTH ")).branch = some Branch.both
    ∧ (parent_tourism_agent envGeoOk cbs0 "Tell me about London" Option.none).branch
        = some Branch.both := by
  refine ⟨(C10_override envGeoOk cbs0 "london" (1, 2)).1 "BOTH " rfl (by decide)
      (by decide) (by decide),
    (C10_override envGeoOk cbs0 "Tell me about London" (1, 2)).2 rfl rfl⟩
